import Mathlib

/-!
Shallow embedding of the gbj_memory library (src/src/gbj_memory.h and the
companion implementation file): a logical-address memory access layer on top
of a two-wire transport.  Machine integers are modelled as Nat with an
explicit modulus wherever the C width can actually truncate a value
(the uint8_t pageLen chunk variable, the uint8_t loop counter of fill,
the uint16_t realPosition sum, the uint32_t subtraction in fill's clamp).
The transport (gbj_twowire, out of the repository) is modelled ideally:
every call succeeds and is recorded in a trace, writes land at the addressed
device locations, reads return the device memory at the addressed locations.
The while-loops of the C code are embedded fuel-indexed: a result of none
means the loop did not finish within the given fuel budget, for any fuel.
-/

/-- Result codes of the library: 0 is success, ERROR_POSITION (= 12 in the
implementation file) is the library's own position error, and any other
nonzero code coming back from the transport is kept opaque. -/
inductive ResultCodes where
  | success
  | errorPosition
  | errorOther (code : Nat)
  deriving DecidableEq

/-- The private MemoryStatus struct of gbj_memory: maxPosition (maximal
available logical position, already reduced by minPosition), pageSize,
minPosition (physical position of logical 0), and the flag whether a
position prefix on the wire is 1 byte long. -/
structure MemoryStatus where
  maxPosition : Nat
  pageSize : Nat
  minPosition : Nat
  positionInBytes : Bool
  deriving DecidableEq

/-- One recorded transport call: the uint16_t position value whose low
addrLen bytes are sent as the address phase, and the data bytes passed to
the transport for the data phase (empty for an address-only write). -/
structure BusCall where
  addr : Nat
  addrLen : Nat
  data : List Nat
  deriving DecidableEq

/-- Arguments of one fill() call issued by erase(), recorded for the trace
of erase. -/
structure FillCall where
  position : Nat
  dataLen : Nat
  fillValue : Nat
  deriving DecidableEq

namespace gbj_memory

/-- getCapacityByte(): maxPosition + 1. -/
def getCapacityByte (st : MemoryStatus) : Nat :=
  st.maxPosition + 1

/-- getPageSize(). -/
def getPageSize (st : MemoryStatus) : Nat :=
  st.pageSize

/-- getPages(): getCapacityByte() / getPageSize(), integer division. -/
def getPages (st : MemoryStatus) : Nat :=
  getCapacityByte st / getPageSize st

/-- getPositionReal(): logicalPosition + minPosition, computed in uint16_t. -/
def getPositionReal (st : MemoryStatus) (logicalPosition : Nat) : Nat :=
  (logicalPosition + st.minPosition) % 65536

/-- checkPosition(position, dataLen): ERROR_POSITION when dataLen == 0 or
maxPosition < position + dataLen, success otherwise.  The C sum
position + dataLen is an int-promoted sum of two uint16_t values, exact
for the representable range, hence plain Nat addition here. -/
def checkPosition (st : MemoryStatus) (position dataLen : Nat) : ResultCodes :=
  if dataLen = 0 ∨ st.maxPosition < position + dataLen then ResultCodes.errorPosition
  else ResultCodes.success

/-- begin(maxPosition, pageSize, minPosition): sanitize and store the three
configuration fields, then return the transport initialization result.
The subtraction maxPosition - min(minPosition, maxPosition) cannot
underflow, so Nat subtraction coincides with the uint16_t one. -/
def begin (st : MemoryStatus) (maxPosition pageSize minPosition : Nat)
    (transportResult : ResultCodes) : MemoryStatus × ResultCodes :=
  let minP := min minPosition maxPosition
  ({ st with
      minPosition := minP
      maxPosition := maxPosition - minP
      pageSize := max pageSize 1 },
   transportResult)

/-- The while (dataLen) loop of storeStream().  Loop state: the running
logical position, the remaining dataLen, and the offset of the advanced
dataBuffer pointer into the caller's buffer.  Each iteration computes
uint8_t pageLen = min(dataLen, pageSize - position % pageSize) (truncated
mod 256 by the uint8_t assignment), then calls
busSendStreamPrefixed(dataBuffer, dataLen, ...) with the address prefix
realPosition that was computed once before the loop, and advances all three
state components by pageLen.  The data handed to the transport is dataLen
bytes from the advanced buffer pointer.  Fuel-indexed; none = out of fuel. -/
def storeStreamLoop (st : MemoryStatus) (realPosition : Nat) (buffer : List Nat) :
    Nat → Nat → Nat → Nat → Option (List BusCall)
  | 0, _, _, _ => none
  | fuel + 1, position, dataLen, bufOff =>
    if dataLen = 0 then some []
    else
      let pageLen := (min dataLen (st.pageSize - position % st.pageSize)) % 256
      let call : BusCall :=
        { addr := realPosition
          addrLen := if st.positionInBytes then 1 else 2
          data := (buffer.drop bufOff).take dataLen }
      match storeStreamLoop st realPosition buffer fuel (position + pageLen)
          (dataLen - pageLen) (bufOff + pageLen) with
      | none => none
      | some calls => some (call :: calls)

/-- storeStream(position, dataBuffer, dataLen): compute realPosition, run
checkPosition and return its error without touching the transport, else run
the chunking loop over the ideal transport and return success with the
trace of transport calls. -/
def storeStream (st : MemoryStatus) (position : Nat) (buffer : List Nat)
    (dataLen : Nat) (fuel : Nat) : Option (ResultCodes × List BusCall) :=
  let realPosition := getPositionReal st position
  if checkPosition st position dataLen = ResultCodes.errorPosition then
    some (ResultCodes.errorPosition, [])
  else
    match storeStreamLoop st realPosition buffer fuel position dataLen 0 with
    | none => none
    | some calls => some (ResultCodes.success, calls)

/-- The device address actually selected by a bus call: only the low
addrLen bytes of the position value reach the wire. -/
def effectiveAddr (c : BusCall) : Nat :=
  c.addr % 256 ^ c.addrLen

/-- Ideal device memory after writing the data bytes of one call starting
at address a. -/
def writeBytes (mem : Nat → Nat) (a : Nat) (data : List Nat) : Nat → Nat :=
  fun x => if a ≤ x ∧ x < a + data.length then data.getD (x - a) (mem x) else mem x

/-- Ideal device memory after a sequence of recorded transport writes. -/
def applyCalls (mem : Nat → Nat) (calls : List BusCall) : Nat → Nat :=
  calls.foldl (fun m c => writeBytes m (effectiveAddr c) c.data) mem

/-- Sequential read of n bytes from device memory starting at address a,
modelling the auto-incrementing busReceive. -/
def readBytes (mem : Nat → Nat) (a n : Nat) : List Nat :=
  (List.range n).map fun i => mem (a + i)

/-- retrieveStream(position, dataBuffer, dataLen): after checkPosition
passes, one address-only transport write of realPosition followed by a
single busReceive of dataLen bytes (not page-chunked).  Returns the result
code, the transport-call trace, and the bytes placed into the caller's
buffer. -/
def retrieveStream (st : MemoryStatus) (mem : Nat → Nat)
    (position dataLen : Nat) : ResultCodes × List BusCall × List Nat :=
  let realPosition := getPositionReal st position
  let addrLen : Nat := if st.positionInBytes then 1 else 2
  if checkPosition st position dataLen = ResultCodes.errorPosition then
    (ResultCodes.errorPosition, [], [])
  else
    (ResultCodes.success,
      [{ addr := realPosition, addrLen := addrLen, data := [] }],
      readBytes mem (realPosition % 256 ^ addrLen) dataLen)

/-- The buffer-initialization loop of fill():
for (uint8_t i = 0; i < dataLen; i++) dataBuffer[i] = fillValue;
The counter i is uint8_t, so the increment wraps mod 256 while the bound
dataLen is uint16_t.  Fuel-indexed; none = out of fuel. -/
def fillInitLoop (fillValue dataLen : Nat) : Nat → Nat → List Nat → Option (List Nat)
  | 0, _, _ => none
  | fuel + 1, i, acc =>
    if i < dataLen then
      fillInitLoop fillValue dataLen fuel ((i + 1) % 256) (acc ++ [fillValue])
    else some acc

/-- fill(position, dataLen, fillValue): clamp dataLen to
getCapacityByte() - position (a uint32_t subtraction, hence the explicit
wrap mod 2^32 when position exceeds the capacity), run checkPosition on the
clamped length, materialize the local buffer, and delegate to
storeStream. -/
def fill (st : MemoryStatus) (position dataLen0 fillValue : Nat)
    (fuel : Nat) : Option (ResultCodes × List BusCall) :=
  let dataLen := min dataLen0 ((getCapacityByte st + 4294967296 - position) % 4294967296)
  if checkPosition st position dataLen = ResultCodes.errorPosition then
    some (ResultCodes.errorPosition, [])
  else
    match fillInitLoop fillValue dataLen fuel 0 [] with
    | none => none
    | some dataBuffer => storeStream st position dataBuffer dataLen fuel

/-- The while (pages--) loop of erase(): the body runs once per page; each
iteration calls fill(position, getPageSize(), 0xFF), stops at the first
failing call, and advances position by getPageSize().  The trace of issued
fill calls is recorded.  Fuel-indexed; none = out of fuel. -/
def eraseLoop (st : MemoryStatus) : Nat → Nat → Nat → Option (ResultCodes × List FillCall)
  | 0, _, _ => none
  | fuel + 1, pages, position =>
    if pages = 0 then some (ResultCodes.success, [])
    else
      let fc : FillCall := ⟨position, getPageSize st, 255⟩
      match fill st position (getPageSize st) 255 fuel with
      | none => none
      | some (r, _) =>
        if r = ResultCodes.success then
          match eraseLoop st fuel (pages - 1) (position + getPageSize st) with
          | none => none
          | some (rr, fcs) => some (rr, fc :: fcs)
        else some (r, [fc])

/-- erase(): iterate the fill loop over getPages() pages starting at
logical position 0. -/
def erase (st : MemoryStatus) (fuel : Nat) : Option (ResultCodes × List FillCall) :=
  eraseLoop st fuel (getPages st) 0

/-- Round-trip harness over the ideal transport: store the buffer at the
given position into an all-zero device memory via storeStream, apply the
recorded transport writes to the device memory, then retrieve the same
number of bytes from the same position with retrieveStream. -/
def roundTrip (st : MemoryStatus) (position : Nat) (buffer : List Nat)
    (fuel : Nat) : Option (List Nat) :=
  match storeStream st position buffer buffer.length fuel with
  | some (ResultCodes.success, calls) =>
    some (retrieveStream st (applyCalls (fun _ => 0) calls) position buffer.length).2.2
  | _ => none

end gbj_memory

namespace gbj_memory

/-! Helper lemmas shared by the claim theorems. -/

/-- A storeStream result carrying the position error always carries an
empty transport trace: the error is produced before the loop runs. -/
lemma storeStream_error_calls_empty (st : MemoryStatus) (position : Nat)
    (buffer : List Nat) (dataLen fuel : Nat) (calls : List BusCall)
    (h : storeStream st position buffer dataLen fuel =
      some (ResultCodes.errorPosition, calls)) : calls = [] := by
  simp only [storeStream] at h
  split at h
  · simp only [Option.some.injEq, Prod.mk.injEq] at h
    exact h.2.symm
  · split at h
    · exact Option.noConfusion h
    · simp only [Option.some.injEq, Prod.mk.injEq] at h
      exact absurd h.1 (by simp)

/-- A fill result carrying the position error always carries an empty
transport trace: the error comes from a checkPosition call evaluated
before any transport operation, either in fill itself or in the
storeStream it delegates to. -/
lemma fill_error_calls_empty (st : MemoryStatus)
    (position dataLen0 fillValue fuel : Nat) (calls : List BusCall)
    (h : fill st position dataLen0 fillValue fuel =
      some (ResultCodes.errorPosition, calls)) : calls = [] := by
  simp only [fill] at h
  split at h
  · simp only [Option.some.injEq, Prod.mk.injEq] at h
    exact h.2.symm
  · split at h
    · exact Option.noConfusion h
    · exact storeStream_error_calls_empty _ _ _ _ _ _ h

/-- With pageSize = 256 and a page-aligned position, the uint8_t chunk
variable pageLen is 256 % 256 = 0, so the loop state never advances and
the while loop of storeStream never finishes, whatever the fuel. -/
lemma storeStreamLoop_pageSize256_stuck (rp : Nat) (buffer : List Nat) :
    ∀ fuel bufOff,
      storeStreamLoop ⟨1000, 256, 0, false⟩ rp buffer fuel 0 256 bufOff = none := by
  intro fuel
  induction fuel with
  | zero => intro bufOff; rfl
  | succ n ih =>
    intro bufOff
    simp only [storeStreamLoop]
    norm_num
    rw [ih bufOff]

/-- With dataLen = 256 the uint8_t counter of the fill initialization loop
wraps mod 256 and stays strictly below the bound forever, so the loop
never finishes, whatever the fuel. -/
lemma fillInitLoop_256_stuck (v : Nat) :
    ∀ fuel i acc, i < 256 → fillInitLoop v 256 fuel i acc = none := by
  intro fuel
  induction fuel with
  | zero => intro i acc _; rfl
  | succ n ih =>
    intro i acc hi
    simp only [fillInitLoop, if_pos hi]
    exact ih _ _ (Nat.mod_lt _ (by norm_num))

end gbj_memory

namespace gbj_memory

/-- C1: the claim states the bounds check succeeds whenever dataLen > 0 and
position + dataLen <= capacityBytes = maxPosition + 1, in particular at the
boundary position + dataLen == capacityBytes.  The code compares against
maxPosition, not maxPosition + 1: with maxPosition = 15 (capacityBytes = 16)
it rejects the in-capacity requests (position 15, length 1) and
(position 0, length 16) with the position error, while it does accept
(position 0, length 15) and rejects length 0 as the claim says. -/
theorem c1_checkPosition_boundary_rejected :
    checkPosition ⟨15, 16, 0, false⟩ 15 1 = ResultCodes.errorPosition ∧
    checkPosition ⟨15, 16, 0, false⟩ 0 16 = ResultCodes.errorPosition ∧
    checkPosition ⟨15, 16, 0, false⟩ 0 15 = ResultCodes.success ∧
    checkPosition ⟨15, 16, 0, false⟩ 5 0 = ResultCodes.errorPosition ∧
    15 + 1 = getCapacityByte ⟨15, 16, 0, false⟩ := by
  decide

/-- C2: the claim states store-then-retrieve returns the original sequence.
Over an ideal transport, storing [1, 2, 3] at the mid-page position 1 with
pageSize 2 succeeds but retrieving 3 bytes from position 1 yields [2, 3, 3]:
each loop iteration of storeStream hands the whole remaining stream to the
transport at the fixed initial address, so later chunks overwrite the
earlier ones. -/
theorem c2_roundTrip_corrupts :
    roundTrip ⟨100, 2, 0, false⟩ 1 [1, 2, 3] 10 = some [2, 3, 3] ∧
    [2, 3, 3] ≠ [1, 2, 3] := by
  decide

/-- C3: the claim states each transport write of storeStream carries exactly
chunk = min(remaining, pageSize - position mod pageSize) data bytes, e.g.
[6, 16, 16, 2] for pageSize 16, position 10, length 40.  The code passes the
full remaining dataLen to busSendStreamPrefixed (pageLen is computed but only
used to advance the loop state), so the writes carry [40, 34, 18, 2] data
bytes. -/
theorem c3_transport_data_lengths :
    Option.map (fun p => p.2.map fun c => c.data.length)
        (storeStream ⟨63, 16, 0, false⟩ 10 (List.range 40) 40 10) =
      some [40, 34, 18, 2] ∧
    [40, 34, 18, 2] ≠ [6, 16, 16, 2] := by
  decide

/-- C4: the claim states the address prefix of the i-th chunk is
minPosition + initial position + (sum of previous chunk lengths), i.e. is
recomputed from the running position.  The code computes realPosition once
before the loop and reuses it for every chunk: with minPosition 3,
position 10, pageSize 16, length 40 the running position advances by the
chunk lengths [6, 16, 16, 2], so the claimed addresses are
[13, 19, 35, 51], yet all four writes carry address 13. -/
theorem c4_addresses_not_recomputed :
    Option.map (fun p => p.2.map fun c => c.addr)
        (storeStream ⟨63, 16, 3, false⟩ 10 (List.range 40) 40 10) =
      some [13, 13, 13, 13] ∧
    [13, 13, 13, 13] ≠ [13, 19, 35, 51] := by
  decide

/-- C5: the claim states fill with a length exceeding
capacityBytes - position truncates silently and succeeds.  With
maxPosition = 15 (capacityBytes = 16), fill(0, 20, 7) clamps the length to
16, but the subsequent bounds check rejects position + 16 = capacityBytes,
so fill returns the position error and performs no transport call. -/
theorem c5_fill_truncated_rejected :
    fill ⟨15, 16, 0, false⟩ 0 20 7 50 = some (ResultCodes.errorPosition, []) := by
  decide

/-- C6: the claim states erase succeeds (with an always-succeeding
transport), issuing capacityBytes / pageSize fill calls of size pageSize and
value 0xFF at positions 0, pageSize, ...  With maxPosition = 31 and
pageSize = 16 the two fill calls are issued as claimed, but the second one,
fill(16, 16, 0xFF), is rejected by the bounds check (16 + 16 exceeds
maxPosition), so erase propagates the position error instead of
succeeding. -/
theorem c6_erase_fails_on_last_page :
    erase ⟨31, 16, 0, false⟩ 100 =
      some (ResultCodes.errorPosition, [⟨0, 16, 255⟩, ⟨16, 16, 255⟩]) := by
  decide

/-- C7: begin stores minPosition clamped to at most the requested maximal
position, stores maxPosition as the requested maximum minus the clamped
minPosition, stores pageSize clamped to a minimum of 1, and returns the
transport initialization result verbatim, for every input and every
transport result. -/
theorem c7_begin_stores_sanitized_config (st : MemoryStatus)
    (maxP pageS minP : Nat) (r : ResultCodes) :
    (begin st maxP pageS minP r).1.minPosition = min minP maxP ∧
    (begin st maxP pageS minP r).1.minPosition ≤ maxP ∧
    (begin st maxP pageS minP r).1.maxPosition =
      maxP - (begin st maxP pageS minP r).1.minPosition ∧
    (begin st maxP pageS minP r).1.pageSize = max pageS 1 ∧
    1 ≤ (begin st maxP pageS minP r).1.pageSize ∧
    (begin st maxP pageS minP r).2 = r := by
  refine ⟨rfl, ?_, rfl, rfl, ?_, rfl⟩
  · show min minP maxP ≤ maxP
    exact min_le_right _ _
  · show 1 ≤ max pageS 1
    exact le_max_right _ _

/-- C8: whenever the bounds check rejects a request, storeStream and
retrieveStream return the position error with an empty transport trace,
and any fill call that fails with the position error also has an empty
transport trace: an invalid range never causes even a partial transfer. -/
theorem c8_position_error_no_transport_call (st : MemoryStatus)
    (mem : Nat → Nat) (position dataLen fillValue fuel : Nat)
    (buffer : List Nat) :
    (checkPosition st position dataLen = ResultCodes.errorPosition →
      storeStream st position buffer dataLen fuel =
          some (ResultCodes.errorPosition, []) ∧
        retrieveStream st mem position dataLen =
          (ResultCodes.errorPosition, [], [])) ∧
    ∀ r calls, fill st position dataLen fillValue fuel = some (r, calls) →
      r = ResultCodes.errorPosition → calls = [] := by
  refine ⟨fun h => ⟨?_, ?_⟩, fun r calls hf hr => ?_⟩
  · simp [storeStream, h]
  · simp [retrieveStream, h]
  · subst hr
    exact fill_error_calls_empty st position dataLen fillValue fuel calls hf

/-- C8 witness: at maxPosition 15 the request (position 2, length 0) is
rejected, and indeed storeStream, retrieveStream and fill all return the
position error with an empty transport trace there. -/
theorem c8_position_error_no_transport_call_witness :
    (storeStream ⟨15, 16, 0, false⟩ 2 [9] 0 5 =
        some (ResultCodes.errorPosition, []) ∧
      retrieveStream ⟨15, 16, 0, false⟩ (fun _ => 0) 2 0 =
        (ResultCodes.errorPosition, [], [])) ∧
    ([] : List BusCall) = [] :=
  ⟨(c8_position_error_no_transport_call ⟨15, 16, 0, false⟩ (fun _ => 0)
      2 0 7 5 [9]).1 (by decide),
    (c8_position_error_no_transport_call ⟨15, 16, 0, false⟩ (fun _ => 0)
      2 0 7 5 [9]).2 ResultCodes.errorPosition [] (by decide) rfl⟩

/-- C9: the claim states every data-moving operation terminates for every
configuration with pageSize >= 1, including pageSize >= 256 and
dataLen > 255.  With pageSize = 256 the uint8_t chunk variable truncates
min(256, 256) to 0 and the storeStream loop never advances; with
dataLen = 256 the uint8_t counter of fill's initialization loop wraps mod
256 below its bound forever.  Both calls exhaust every fuel budget, i.e.
the loops never finish. -/
theorem c9_loops_do_not_terminate :
    (∀ fuel, storeStream ⟨1000, 256, 0, false⟩ 0 (List.replicate 256 7) 256 fuel =
      none) ∧
    ∀ fuel, fill ⟨1000, 16, 0, false⟩ 0 256 255 fuel = none := by
  constructor
  · intro fuel
    have h := storeStreamLoop_pageSize256_stuck 0 (List.replicate 256 7) fuel 0
    simp only [storeStream, getPositionReal]
    norm_num
    simp only [checkPosition]
    norm_num
    rw [h]
    simp
  · intro fuel
    have h := fillInitLoop_256_stuck 255 fuel 0 [] (by norm_num)
    simp only [fill, getCapacityByte]
    norm_num
    simp only [checkPosition]
    norm_num
    rw [h]
    simp

/-- C10: begin assigns only minPosition, maxPosition and pageSize of the
configuration struct; the addressing-width flag positionInBytes keeps
whatever value it held before initialization, for every input. -/
theorem c10_begin_preserves_positionInBytes (st : MemoryStatus)
    (maxP pageS minP : Nat) (r : ResultCodes) :
    (begin st maxP pageS minP r).1.positionInBytes = st.positionInBytes := rfl

end gbj_memory
